import Mathlib

/-!
Shallow embedding of package `buffer` (src/buffer.go): a growable byte
buffer (`Buffer`) written by one producer and read by many independent
readers (`reader`), each tracking its own offset and a captured epoch
bit (`mark`).  Locks and the condition variable only serialize access
and wake waiters; they carry no data, so the embedding is the state
transformer each operation performs under the lock, with a blocking
`Read` modelled by an explicit `blocked` outcome (the wait-loop
condition holds) and a Go slice-bounds violation by an explicit
`panicked` outcome.
-/

namespace PxiBuffer

/-- A Go byte slice value: element data, allocated capacity, and whether it
is the nil slice.  `append` beyond capacity grows the capacity; Go only
guarantees the new capacity covers the new length, which is all the code
relies on, so growth is modelled as `max need (2 * cap)`. -/
structure GoSlice where
  data : List Nat
  cap : Nat
  isNil : Bool
  deriving DecidableEq

/-- The zero value of a slice-typed field: the nil slice. -/
def nilSlice : GoSlice := ⟨[], 0, true⟩

/-- `make([]byte, 0, c)`. -/
def makeSlice (c : Nat) : GoSlice := ⟨[], c, false⟩

/-- `append(s, p...)` (only called with `s` non-nil in this program). -/
def sliceAppend (s : GoSlice) (p : List Nat) : GoSlice :=
  let need := s.data.length + p.length
  { data := s.data ++ p
    cap := if need ≤ s.cap then s.cap else max need (2 * s.cap)
    isNil := s.isNil }

/-- `s[:0]`: truncate to length zero, retaining capacity and nil-ness. -/
def trunc (s : GoSlice) : GoSlice := ⟨[], s.cap, s.isNil⟩

/-- A Go slice value that can actually arise: a nil slice has no elements. -/
def GoSlice.wf (s : GoSlice) : Prop := s.isNil = true → s.data = []

/-- The `Buffer` struct (buffer.go:12-18).  `sig` records whether the
`sync.Cond` has been installed (it is otherwise stateless). -/
structure Buffer where
  buf : GoSlice
  eof : Bool
  set : Bool
  sig : Bool
  deriving DecidableEq

/-- `&Buffer{}`: zero value. -/
def initBuffer : Buffer := ⟨nilSlice, false, false, false⟩

/-- The error values a `Buffer` operation can return. -/
inductive GoError where
  | errClosed
  | ioEOF
  | ioUnexpectedEOF
  deriving DecidableEq

/-- `(*Buffer).Write` (buffer.go:52-73): returns `(n, err)` and the updated
buffer.  Empty input returns `(0, nil)` before the closed check; a closed
buffer rejects the write; otherwise the buffer is lazily allocated with
capacity 1024 and the bytes are appended. -/
def writeFn (b : Buffer) (p : List Nat) : Nat × Option GoError × Buffer :=
  if p.length = 0 then (0, none, b)
  else if b.eof then (0, some .errClosed, b)
  else
    let buf0 := if b.buf.isNil then makeSlice 1024 else b.buf
    (p.length, none, { b with buf := sliceAppend buf0 p })

/-- `(*Buffer).Close` (buffer.go:76-84): sets `eof` if not already set;
always returns a nil error. -/
def closeFn (b : Buffer) : Buffer :=
  if !b.eof then { b with eof := true } else b

/-- `(*Buffer).Reset` (buffer.go:88-95): clears `eof`, truncates `buf` to
`buf[:0]`, and flips the `set` epoch bit. -/
def resetFn (b : Buffer) : Buffer :=
  { b with eof := false, buf := trunc b.buf, set := !b.set }

/-- The `reader` struct (buffer.go:103-107) without its embedded `*Buffer`
pointer: the shared buffer is passed explicitly to `readFn`. -/
structure Reader where
  off : Nat
  mark : Bool
  deriving DecidableEq

/-- `NewReader` (buffer.go:110-117): installs the condition variable if
absent and returns a reader capturing the current epoch bit. -/
def newReaderFn (b : Buffer) : Buffer × Reader :=
  let b' := if b.sig then b else { b with sig := true }
  (b', { off := 0, mark := b.set })

/-- Outcome of one `(*reader).Read` call: the wait-loop condition held
(`blocked`), the copy step sliced out of bounds (`panicked`), or the call
returned `(n, err)`. -/
inductive ReadOutcome where
  | blocked
  | panicked
  | ret (n : Nat) (err : Option GoError)
  deriving DecidableEq

/-- `(*reader).Read` (buffer.go:119-142) on buffer `b`, reader `r`, caller
buffer `p`: wait while not-eof, nothing unread and same epoch; return
`io.ErrUnexpectedEOF` on epoch mismatch; return `io.EOF` when drained and
closed; otherwise `copy(p, r.buf[r.off:])` — which in Go panics when
`r.off > len(r.buf)` — and advance the offset by the copied count.
Returns the outcome, the caller's buffer after the copy, and the updated
reader. -/
def readFn (b : Buffer) (r : Reader) (p : List Nat) :
    ReadOutcome × List Nat × Reader :=
  if ¬b.eof ∧ b.buf.data.length = r.off ∧ r.mark = b.set then
    (.blocked, p, r)
  else if r.mark ≠ b.set then
    (.ret 0 (some .ioUnexpectedEOF), p, r)
  else if b.buf.data.length = r.off ∧ b.eof then
    (.ret 0 (some .ioEOF), p, r)
  else if b.buf.data.length < r.off then
    (.panicked, p, r)
  else
    let src := b.buf.data.drop r.off
    let n := min p.length src.length
    (.ret n none, src.take n ++ p.drop n, { r with off := r.off + n })

/-- Whole-system state: the shared buffer, all readers created so far, and
whether any call has panicked. -/
structure State where
  b : Buffer
  readers : List Reader
  panicked : Bool
  deriving DecidableEq

/-- The client-visible operations. `read i plen` is a Read on reader `i`
with a caller buffer of length `plen`. -/
inductive Op where
  | write (p : List Nat)
  | close
  | reset
  | newReader
  | read (i : Nat) (plen : Nat)

def isPanic : ReadOutcome → Bool
  | .panicked => true
  | _ => false

/-- One operation applied to the system state.  A `read` on a nonexistent
reader index is a no-op (the caller holds no such reader). -/
def applyOp (s : State) : Op → State
  | .write p => { s with b := (writeFn s.b p).2.2 }
  | .close => { s with b := closeFn s.b }
  | .reset => { s with b := resetFn s.b }
  | .newReader =>
      let br := newReaderFn s.b
      { s with b := br.1, readers := s.readers ++ [br.2] }
  | .read i plen =>
      match s.readers[i]? with
      | none => s
      | some r =>
          let out := readFn s.b r (List.replicate plen 0)
          { s with readers := s.readers.set i out.2.2
                   panicked := s.panicked || isPanic out.1 }

/-- The empty system: a zero-value buffer and no readers. -/
def initState : State := ⟨initBuffer, [], false⟩

/-- Run a sequence of operations from the empty system: the reachable
states are exactly the results of `runOps`. -/
def runOps (ops : List Op) : State := ops.foldl applyOp initState

/-- Write four bytes, create a reader, drain it, reset twice (the boolean
epoch bit returns to the reader's captured value), then read again: the
copy step slices `r.buf[4:]` on a buffer of length 0. -/
def traceC1 : List Op :=
  [.write [1, 1, 1, 1], .newReader, .read 0 4, .reset, .reset, .read 0 1]

/-- The same trace as `traceC1`, stopped just before the final read. -/
def traceC2 : List Op :=
  [.write [1, 1, 1, 1], .newReader, .read 0 4, .reset, .reset]

/-- Claim C1: the claim that no reachable interleaving of Write, Close,
Reset, NewReader and Read ever reaches an out-of-bounds slice in the copy
step is false: after a write of four bytes, a fully drained reader, and
two Resets, the reader's epoch bit again equals the buffer's, its offset
4 exceeds the storage length 0, and the copy step's `r.buf[r.off:]`
slices out of bounds — a run-time panic in Go. -/
theorem c1_panic_reachable : (runOps traceC1).panicked = true := by decide

/-- Claim C2: the claimed invariant — every live reader whose captured
epoch equals the current epoch has its offset at most the storage length —
fails in the reachable state after a four-byte write, a drained reader,
and two Resets: the reader has `mark = set` again but offset 4 > length 0. -/
theorem c2_invariant_violated :
    ¬ (∀ r ∈ (runOps traceC2).readers,
        r.mark = (runOps traceC2).b.set →
        r.off ≤ (runOps traceC2).b.buf.data.length) := by decide

/-- Claim C3, counterexample: a Write of the empty slice on a closed
buffer does not return the write-on-closed error (it returns no error at
all, because the empty-input early return precedes the closed check). -/
theorem c3_counterexample :
    (writeFn (closeFn initBuffer) []).2.1 ≠ some GoError.errClosed := by
  decide

/-- Claim C3 (amended to non-empty inputs): a non-empty Write on a closed
buffer (no intervening Reset, so `eof` is still true) fails with the
write-on-closed error, returns count 0, and leaves the buffer unchanged. -/
theorem c3_write_after_close (b : Buffer) (p : List Nat)
    (hb : b.eof = true) (hp : p ≠ []) :
    writeFn b p = (0, some GoError.errClosed, b) := by
  have hlen : p.length ≠ 0 := fun h => hp (List.length_eq_zero.mp h)
  simp [writeFn, hb, hlen]

/-- Claim C3, witness: writing one byte to a freshly closed buffer. -/
theorem c3_witness :
    writeFn (closeFn initBuffer) [7] = (0, some GoError.errClosed, closeFn initBuffer) :=
  c3_write_after_close (closeFn initBuffer) [7] (by decide) (by decide)

/-- Claim C4: in every buffer state, a Write of an empty input returns
count 0 with no error and leaves the whole buffer state unchanged. -/
theorem c4_empty_write_noop (b : Buffer) (p : List Nat) (hp : p.length = 0) :
    writeFn b p = (0, none, b) := by
  simp [writeFn, hp]

/-- Claim C4, witness: an empty write on a closed buffer. -/
theorem c4_witness :
    writeFn (closeFn initBuffer) [] = (0, none, closeFn initBuffer) :=
  c4_empty_write_noop (closeFn initBuffer) [] rfl

/-- Claim C5: whenever a reader's captured epoch differs from the
buffer's current epoch bit, Read returns the stream-discontinued error
(`io.ErrUnexpectedEOF`) with zero bytes, leaving the caller's buffer and
the reader (its offset included) unchanged — regardless of `eof`, of the
storage length, and of the offset, i.e. before the end-of-stream check
and before any copy. -/
theorem c5_epoch_mismatch (b : Buffer) (r : Reader) (p : List Nat)
    (h : r.mark ≠ b.set) :
    readFn b r p = (.ret 0 (some .ioUnexpectedEOF), p, r) := by
  simp [readFn, h]

/-- Claim C5, witness: a reader created before a Reset, read afterwards
while unread bytes exist. -/
theorem c5_witness :
    readFn (resetFn initBuffer) ⟨0, false⟩ [0] =
      (.ret 0 (some .ioUnexpectedEOF), [0], ⟨0, false⟩) :=
  c5_epoch_mismatch (resetFn initBuffer) ⟨0, false⟩ [0] (by decide)

/-- Claim C6: with matching epochs, offset equal to the storage length,
and the buffer closed, Read returns `io.EOF` with zero bytes and changes
neither the caller's buffer nor the reader; and since the buffer is
untouched, reading again from the returned reader yields `io.EOF` again. -/
theorem c6_eof_stable (b : Buffer) (r : Reader) (p : List Nat)
    (h1 : r.mark = b.set) (h2 : b.buf.data.length = r.off)
    (h3 : b.eof = true) :
    readFn b r p = (.ret 0 (some .ioEOF), p, r) ∧
    readFn b (readFn b r p).2.2 p = (.ret 0 (some .ioEOF), p, r) := by
  have h : readFn b r p = (.ret 0 (some .ioEOF), p, r) := by
    simp [readFn, h1, h2, h3]
  exact ⟨h, by rw [h]; exact h⟩

/-- Claim C6, witness: a reader on a closed, empty buffer. -/
theorem c6_witness :
    readFn (closeFn initBuffer) ⟨0, false⟩ [0, 0] =
      (.ret 0 (some .ioEOF), [0, 0], ⟨0, false⟩) :=
  (c6_eof_stable (closeFn initBuffer) ⟨0, false⟩ [0, 0] rfl rfl rfl).1

/-- Claim C7: with matching epochs and offset strictly below the storage
length, Read copies exactly `min (len p) (storage length - offset)` bytes
of storage starting at the offset into the front of the caller's buffer,
advances the offset by that count, and returns that count with no error. -/
theorem c7_copy (b : Buffer) (r : Reader) (p : List Nat)
    (h1 : r.mark = b.set) (h2 : r.off < b.buf.data.length) :
    readFn b r p =
      (.ret (min p.length (b.buf.data.length - r.off)) none,
       (b.buf.data.drop r.off).take (min p.length (b.buf.data.length - r.off)) ++
         p.drop (min p.length (b.buf.data.length - r.off)),
       { r with off := r.off + min p.length (b.buf.data.length - r.off) }) := by
  have hne : b.buf.data.length ≠ r.off := Nat.ne_of_gt h2
  have hnlt : ¬ b.buf.data.length < r.off := Nat.not_lt.mpr (Nat.le_of_lt h2)
  simp [readFn, h1, hne, hnlt]

/-- Claim C7, witness: a three-byte buffer read from offset 1 into a
one-byte caller buffer yields the single byte at index 1. -/
theorem c7_witness :
    readFn (writeFn initBuffer [5, 6, 7]).2.2 ⟨1, false⟩ [0] =
      (.ret 1 none, [6], ⟨2, false⟩) := by
  rw [c7_copy (writeFn initBuffer [5, 6, 7]).2.2 ⟨1, false⟩ [0]
    (by decide) (by decide)]
  decide

/-- Claim C8: a non-empty Write on an open buffer (with a well-formed
slice: a nil slice holds no bytes) returns the input's length with no
error, the new storage is the old storage with the input appended (its
length grows by exactly the input's length), and the closed flag and the
epoch bit are unchanged. -/
theorem c8_append (b : Buffer) (p : List Nat)
    (hp : p ≠ []) (hb : b.eof = false) (hw : b.buf.wf) :
    (writeFn b p).1 = p.length ∧
    (writeFn b p).2.1 = none ∧
    (writeFn b p).2.2.buf.data = b.buf.data ++ p ∧
    (writeFn b p).2.2.buf.data.length = b.buf.data.length + p.length ∧
    (writeFn b p).2.2.eof = b.eof ∧
    (writeFn b p).2.2.set = b.set := by
  have hlen : p.length ≠ 0 := fun h => hp (List.length_eq_zero.mp h)
  cases hnil : b.buf.isNil with
  | true =>
      have hdata : b.buf.data = [] := hw hnil
      simp [writeFn, hb, hlen, hnil, hdata, makeSlice, sliceAppend]
  | false =>
      simp [writeFn, hb, hlen, hnil, sliceAppend]

/-- Claim C8, witness: writing one byte to the fresh (nil-slice) buffer. -/
theorem c8_witness :
    (writeFn initBuffer [9]).1 = 1 ∧
    (writeFn initBuffer [9]).2.1 = none ∧
    (writeFn initBuffer [9]).2.2.buf.data = initBuffer.buf.data ++ [9] ∧
    (writeFn initBuffer [9]).2.2.buf.data.length =
      initBuffer.buf.data.length + 1 ∧
    (writeFn initBuffer [9]).2.2.eof = initBuffer.eof ∧
    (writeFn initBuffer [9]).2.2.set = initBuffer.set :=
  c8_append initBuffer [9] (by decide) rfl (fun _ => rfl)

/-- Claim C9: a Read on reader `i` leaves the shared buffer (storage,
closed flag, epoch bit) unchanged, keeps the set of readers the same
size, and leaves every reader other than `i` (offset and captured epoch)
exactly as it was. -/
theorem c9_read_frame (s : State) (i plen : Nat) :
    (applyOp s (.read i plen)).b = s.b ∧
    (applyOp s (.read i plen)).readers.length = s.readers.length ∧
    ∀ j, j ≠ i →
      (applyOp s (.read i plen)).readers[j]? = s.readers[j]? := by
  cases h : s.readers[i]? with
  | none => simp [applyOp, h]
  | some r =>
      refine ⟨by simp [applyOp, h], by simp [applyOp, h], fun j hj => ?_⟩
      simp [applyOp, h, List.getElem?_set_ne (fun he => hj he.symm)]

/-- Claim C9, witness: in a state with two readers, a Read on reader 0
leaves the buffer and reader 1 untouched. -/
theorem c9_witness :
    (applyOp (runOps [.write [1], .newReader, .newReader]) (.read 0 1)).b =
      (runOps [.write [1], .newReader, .newReader]).b ∧
    (applyOp (runOps [.write [1], .newReader, .newReader]) (.read 0 1)).readers[1]? =
      (runOps [.write [1], .newReader, .newReader]).readers[1]? :=
  ⟨(c9_read_frame (runOps [.write [1], .newReader, .newReader]) 0 1).1,
   (c9_read_frame (runOps [.write [1], .newReader, .newReader]) 0 1).2.2 1
     (by decide)⟩

/-- Appending at least one byte leaves a positive capacity: either the
data already fit (so the capacity covers the new, positive length) or the
capacity grew to at least the new length. -/
theorem sliceAppend_cap_pos (s : GoSlice) (p : List Nat)
    (hp : p.length ≠ 0) : 0 < (sliceAppend s p).cap := by
  simp only [sliceAppend]
  split <;> omega

/-- Claim C10: in every buffer state — open or closed, before or after
any resets — Reset clears the closed flag, empties the storage while
retaining its capacity and nil-ness, and flips the epoch bit; moreover,
after any successful non-empty write the capacity is positive, and a
Reset of the written buffer reports length 0 with the capacity unchanged. -/
theorem c10_reset (b : Buffer) (p : List Nat) :
    resetFn b = { b with eof := false,
                         buf := ⟨[], b.buf.cap, b.buf.isNil⟩,
                         set := !b.set } ∧
    (p ≠ [] → b.eof = false →
      0 < (writeFn b p).2.2.buf.cap ∧
      (resetFn (writeFn b p).2.2).buf.data.length = 0 ∧
      (resetFn (writeFn b p).2.2).buf.cap = (writeFn b p).2.2.buf.cap) := by
  refine ⟨rfl, fun hp hb => ?_⟩
  have hlen : p.length ≠ 0 := fun h => hp (List.length_eq_zero.mp h)
  refine ⟨?_, rfl, rfl⟩
  simp only [writeFn]
  rw [if_neg hlen, if_neg (by simp [hb])]
  exact sliceAppend_cap_pos _ p hlen

/-- Claim C10, witness: a Reset of a closed buffer clears the closed flag
(reopening the stream), and the fresh buffer after a one-byte write resets
to length 0 with its positive capacity retained. -/
theorem c10_witness :
    resetFn (closeFn initBuffer) =
      { closeFn initBuffer with
          eof := false,
          buf := ⟨[], (closeFn initBuffer).buf.cap, (closeFn initBuffer).buf.isNil⟩,
          set := !(closeFn initBuffer).set } ∧
    0 < (writeFn initBuffer [3]).2.2.buf.cap ∧
    (resetFn (writeFn initBuffer [3]).2.2).buf.data.length = 0 ∧
    (resetFn (writeFn initBuffer [3]).2.2).buf.cap =
      (writeFn initBuffer [3]).2.2.buf.cap :=
  ⟨(c10_reset (closeFn initBuffer) [3]).1,
   (c10_reset initBuffer [3]).2 (by decide) rfl⟩

end PxiBuffer
